import Mathlib

/-!
Verification of the dimension resolver and pixel sampler of
`image_manipulation/image_conversions.go` (package `image_conversions`).

Shallow embedding notes:
* Machine integers are modelled as `Nat`.  All quantities involved (terminal
  sizes, image sizes, requested dimensions) are non-negative in the program;
  Go's `terminalWidth - 1` appears as truncated `Nat` subtraction, which agrees
  with Go whenever `terminalWidth ≥ 1` (the surface-geometry data model requires
  positive sizes) and, at `terminalWidth = 0`, still drives every comparison in
  the code to the same branch as Go's `-1` would.
* Go's `int(0.5 * float64(h))` is exact halving of an integer followed by
  truncation toward zero, i.e. `h / 2` on `Nat`; `int(2 * float64(w))` is
  `2 * w` (both float computations are exact for the magnitudes involved).
* The resize primitive `imaging.Resize` is an external collaborator.  Its
  dimension contract (a zero target dimension means "preserve aspect ratio,
  round half up, minimum 1"; both zero or an empty source means an empty
  image) is embedded in `resizeDims`; the resampled pixel contents are
  abstracted by a `Resampler` parameter, since the exact filter is a quality
  choice, not a correctness one.
* `winsize.GetTerminalSize` is an external collaborator; its result is passed
  in as the `terminalWidth`/`terminalHeight` parameters.  Propagation of a
  query failure is outside the embedded fragment.
* Errors are the `fmt.Errorf` message strings the code produces.
-/

namespace ImageConversions

/-- A pixel as delivered by Go's `Color.RGBA()`: alpha-premultiplied channels
in the 16-bit range `[0, 0xffff]`. -/
structure Color where
  r : Nat
  g : Nat
  b : Nat
  a : Nat
deriving DecidableEq

/-- A raster image: bounds plus random pixel access (Go's `image.Image`,
with bounds normalised to start at the origin). -/
structure Image where
  width : Nat
  height : Nat
  At : Nat → Nat → Color

/-- Output element of the conversion, mirroring the Go struct `AsciiPixel`
with fields `charDepth`, `grayscaleValue` and `rgbValue`. -/
structure AsciiPixel where
  charDepth : Nat
  grayscaleValue : Nat × Nat × Nat
  rgbValue : Nat × Nat × Nat
deriving DecidableEq

/-- Go source: `func resizeForBraille(asciiWidth, asciiHeight int) (int, int)
\x7b return asciiWidth * 2, asciiHeight * 4 \x7d`. -/
def resizeForBraille (asciiWidth asciiHeight : Nat) : Nat × Nat :=
  (asciiWidth * 2, asciiHeight * 4)

/-- Dimension contract of the external `imaging.Resize` collaborator: a zero
target dimension is derived from the other one preserving the source aspect
ratio, rounded half up with a minimum of 1; if both targets are zero, or the
source is empty, the result is the empty image.  `(2*p + q) / (2*q)` is
`⌊p/q + 1/2⌋` on naturals. -/
def resizeDims (srcW srcH dstW dstH : Nat) : Nat × Nat :=
  if dstW = 0 ∧ dstH = 0 then (0, 0)
  else if srcW = 0 ∨ srcH = 0 then (0, 0)
  else
    (if dstW = 0 then max 1 ((2 * (dstH * srcW) + srcH) / (2 * srcH)) else dstW,
     if dstH = 0 then max 1 ((2 * (dstW * srcH) + srcW) / (2 * srcW)) else dstH)

/-- Pixel contents of a resize are supplied by an abstract resampling filter:
given the source image, the target size and a coordinate, it produces a
16-bit-per-channel color. -/
structure Resampler where
  resample : Image → Nat → Nat → Nat → Nat → Color

/-- Resize an image: the bounds follow the collaborator's dimension contract
`resizeDims`, the pixels come from the abstract filter. -/
def resize (R : Resampler) (img : Image) (dstW dstH : Nat) : Image :=
  { width := (resizeDims img.width img.height dstW dstH).1
    height := (resizeDims img.width img.height dstW dstH).2
    At := fun x y =>
      R.resample img (resizeDims img.width img.height dstW dstH).1
        (resizeDims img.width img.height dstW dstH).2 x y }

/-- Error message from lines 75 and 157 of the source. -/
def widthBoundMsg : String := "set width must be lower than terminal width"

/-- Error message from line 102 of the source. -/
def derivedWidthMsg : String := "width calculated with aspect ratio exceeds terminal width"

/-- Error message from line 106 of the source. -/
def bothSetMsg : String := "both width and height can\x27t be set. Use dimensions instead"

/-- The spec's `ConstraintViolation` error kind, identified with the width
constraint messages the code produces. -/
def constraintViolation (e : String) : Prop :=
  e = widthBoundMsg ∨ e = derivedWidthMsg

instance (e : String) : Decidable (constraintViolation e) := by
  unfold constraintViolation; infer_instance

/-- Dimension-resolution logic of `ConvertToAsciiPixels` (lines 56–150 of the
source): the branch on `full` / single-axis width-height / no dimensions /
explicit dimensions, each probe resize read through `resizeDims`, producing
the `(asciiWidth, asciiHeight)` pair handed to the final resize (after the
`resizeForBraille` scaling when `isBraille`), or the error the branch returns.
Go reads `dimensions[0]`/`dimensions[1]` directly (panicking on a short
slice); here `List.getD` stands in, and theorems about the explicit branch
quantify only over lists of length ≥ 2 as the data model prescribes. -/
def resolveDims (srcW srcH : Nat) (dimensions : List Nat) (width height : Nat)
    (full isBraille : Bool) (terminalWidth terminalHeight : Nat) :
    Except String (Nat × Nat) :=
  if full then
    -- lines 56–69
    let asciiWidth := terminalWidth - 1
    let asciiHeight := (resizeDims srcW srcH asciiWidth 0).2 / 2
    .ok (if isBraille then resizeForBraille asciiWidth asciiHeight
         else (asciiWidth, asciiHeight))
  else if (width ≠ 0 ∨ height ≠ 0) ∧ dimensions.length = 0 then
    -- lines 71–112
    if terminalWidth - 1 < width then .error widthBoundMsg
    else if width ≠ 0 ∧ height = 0 then
      let asciiWidth := width
      let h0 := (resizeDims srcW srcH asciiWidth 0).2 / 2
      let asciiHeight := if h0 = 0 then 1 else h0
      .ok (if isBraille then resizeForBraille asciiWidth asciiHeight
           else (asciiWidth, asciiHeight))
    else if height ≠ 0 ∧ width = 0 then
      let asciiHeight := height
      let asciiWidth := 2 * (resizeDims srcW srcH 0 asciiHeight).1
      if terminalWidth - 1 < asciiWidth then .error derivedWidthMsg
      else .ok (if isBraille then resizeForBraille asciiWidth asciiHeight
                else (asciiWidth, asciiHeight))
    else .error bothSetMsg
  else if dimensions.length = 0 then
    -- lines 114–140
    let asciiHeight := terminalHeight - 1
    let asciiWidth := 2 * (resizeDims srcW srcH 0 asciiHeight).1
    if terminalWidth ≤ asciiWidth then
      let asciiWidth2 := terminalWidth - 1
      let asciiHeight2 := (resizeDims srcW srcH asciiWidth2 0).2 / 2
      .ok (if isBraille then resizeForBraille asciiWidth2 asciiHeight2
           else (asciiWidth2, asciiHeight2))
    else
      .ok (if isBraille then resizeForBraille asciiWidth asciiHeight
           else (asciiWidth, asciiHeight))
  else
    -- lines 142–149
    let asciiWidth := dimensions.getD 0 0
    let asciiHeight := dimensions.getD 1 0
    .ok (if isBraille then resizeForBraille asciiWidth asciiHeight
         else (asciiWidth, asciiHeight))

/-- Luminance byte of Go's `color.GrayModel.Convert`, computed from the
16-bit channels: `uint8((19595*r + 38470*g + 7471*b + 1<<15) >> 24)`. -/
def grayY (c : Color) : Nat :=
  ((19595 * c.r + 38470 * c.g + 7471 * c.b + 2 ^ 15) / 2 ^ 24) % 256

/-- The 16-bit channel Go's `color.Gray.RGBA()` returns for luminance `y`:
`y |= y << 8`.  All three color channels of the gray pixel carry this value. -/
def grayChannel (c : Color) : Nat :=
  grayY c ||| (grayY c <<< 8)

/-- Body of the sampling loop (lines 171–190): grayscale-convert the pixel,
divide the 16-bit channels by 257 (truncating) for the grayscale triple and
the char depth, and divide the original channels by 257 for the RGB triple. -/
def samplePixel (c : Color) : AsciiPixel :=
  { charDepth := grayChannel c / 257
    grayscaleValue := (grayChannel c / 257, grayChannel c / 257, grayChannel c / 257)
    rgbValue := (c.r / 257, c.g / 257, c.b / 257) }

/-- The nested sampling loops of lines 166–194: one row per image row
(top to bottom), one `AsciiPixel` per column (left to right). -/
def sampleGrid (img : Image) : List (List AsciiPixel) :=
  (List.range img.height).map fun y =>
    (List.range img.width).map fun x => samplePixel (img.At x y)

/-- Go source, lines 204–221: `flipX` reverses every row in place, `flipY`
reverses the row order. -/
def reverse (imgSet : List (List AsciiPixel)) (flipX flipY : Bool) :
    List (List AsciiPixel) :=
  let s1 := if flipX then imgSet.map List.reverse else imgSet
  if flipY then s1.reverse else s1

/-- The full conversion (lines 46–202): resolve dimensions (any branch error
aborts), final-resize the original image to the resolved pair, re-check the
explicit-dimensions width bound (lines 155–159), sample the grid, and apply
the mirror pass when either flip is requested. -/
def ConvertToAsciiPixels (R : Resampler) (img : Image) (dimensions : List Nat)
    (width height : Nat) (flipX flipY full isBraille : Bool)
    (terminalWidth terminalHeight : Nat) :
    Except String (List (List AsciiPixel)) :=
  match resolveDims img.width img.height dimensions width height full isBraille
      terminalWidth terminalHeight with
  | .error e => .error e
  | .ok p =>
    if 0 < dimensions.length ∧ full = false ∧ terminalWidth - 1 < dimensions.getD 0 0 then
      .error widthBoundMsg
    else
      let imgSet := sampleGrid (resize R img p.1 p.2)
      .ok (if flipX || flipY then reverse imgSet flipX flipY else imgSet)

/-- An all-black 16-bit pixel, as `RGBA()` reports it. -/
def blackColor : Color := ⟨0, 0, 0, 65535⟩

/-- A fully black image of the given size. -/
def blackImage (w h : Nat) : Image := ⟨w, h, fun _ _ => blackColor⟩

/-- A concrete resampling filter for witnesses: every sample is black. -/
def blackResampler : Resampler := ⟨fun _ _ _ _ _ => blackColor⟩

/-- The `AsciiPixel` a black pixel samples to. -/
def blackAsciiPixel : AsciiPixel := ⟨0, (0, 0, 0), (0, 0, 0)⟩

/-- The spec's aspect correction for width-derived heights, read literally:
`round(probe_height * 0.5)`, with `round` the standard round-half-up. -/
def specRoundHalf (h : Nat) : ℤ := round ((h : ℚ) * (1 / 2))

/-! Helper lemmas shared by the claim theorems. -/

set_option maxRecDepth 4000

/-- Setting the low and the shifted-high copy of a byte is multiplication
by 257, so `grayChannel` is `257 * grayY`. -/
lemma lor_shiftLeft_eq (y : Nat) (hy : y < 256) : y ||| (y <<< 8) = 257 * y := by
  revert hy; revert y; decide

lemma grayY_lt (c : Color) : grayY c < 256 :=
  Nat.mod_lt _ (by decide)

lemma grayChannel_eq (c : Color) : grayChannel c = 257 * grayY c :=
  lor_shiftLeft_eq _ (grayY_lt c)

lemma sampleGrid_length (img : Image) : (sampleGrid img).length = img.height := by
  simp [sampleGrid]

lemma sampleGrid_row_length (img : Image) :
    ∀ r ∈ sampleGrid img, r.length = img.width := by
  intro r hr
  simp only [sampleGrid, List.mem_map] at hr
  obtain ⟨y, _, rfl⟩ := hr
  simp

lemma reverse_length (gs : List (List AsciiPixel)) (fx fy : Bool) :
    (ImageConversions.reverse gs fx fy).length = gs.length := by
  unfold ImageConversions.reverse
  cases fx <;> cases fy <;> simp

lemma reverse_row_length (gs : List (List AsciiPixel)) (fx fy : Bool) (n : Nat)
    (hall : ∀ r ∈ gs, r.length = n) :
    ∀ r ∈ ImageConversions.reverse gs fx fy, r.length = n := by
  unfold ImageConversions.reverse
  cases fx <;> cases fy <;> intro r hr <;>
    simp only [if_true, if_false, Bool.false_eq_true, ite_false, ite_true,
      List.mem_reverse, List.mem_map] at hr
  · exact hall r hr
  · exact hall r hr
  · obtain ⟨s, hs, rfl⟩ := hr
    simpa using hall s hs
  · obtain ⟨s, hs, rfl⟩ := hr
    simpa using hall s hs

/-- The single-axis width branch of the resolver (lines 71–89 and 109–112). -/
lemma resolveDims_byWidth (srcW srcH w : Nat) (br : Bool) (tw th : Nat)
    (hw : w ≠ 0) :
    resolveDims srcW srcH [] w 0 false br tw th =
      if tw - 1 < w then .error widthBoundMsg
      else
        .ok (if br then
              resizeForBraille w
                (if (resizeDims srcW srcH w 0).2 / 2 = 0 then 1
                 else (resizeDims srcW srcH w 0).2 / 2)
             else
              (w, if (resizeDims srcW srcH w 0).2 / 2 = 0 then 1
                  else (resizeDims srcW srcH w 0).2 / 2)) := by
  simp [resolveDims, hw]

/-- The both-axes-set paths of the resolver (lines 74–76 and 105–107): the
width bound is checked first, then the mutual-exclusion rejection fires. -/
lemma resolveDims_bothSet (srcW srcH w h : Nat) (br : Bool) (tw th : Nat)
    (hw : w ≠ 0) (hh : h ≠ 0) :
    resolveDims srcW srcH [] w h false br tw th =
      .error (if tw - 1 < w then widthBoundMsg else bothSetMsg) := by
  by_cases hlt : tw - 1 < w <;> simp [resolveDims, hw, hh, hlt]

/-- The single-axis height branch of the resolver (lines 91–103). -/
lemma resolveDims_byHeight (srcW srcH h : Nat) (br : Bool) (tw th : Nat)
    (hh : h ≠ 0) :
    resolveDims srcW srcH [] 0 h false br tw th =
      if tw - 1 < 2 * (resizeDims srcW srcH 0 h).1 then .error derivedWidthMsg
      else
        .ok (if br then resizeForBraille (2 * (resizeDims srcW srcH 0 h).1) h
             else (2 * (resizeDims srcW srcH 0 h).1, h)) := by
  simp [resolveDims, hh]

/-- The explicit-dimensions branch of the resolver (lines 142–149). -/
lemma resolveDims_explicit (srcW srcH d0 d1 : Nat) (rest : List Nat)
    (w h : Nat) (br : Bool) (tw th : Nat) :
    resolveDims srcW srcH (d0 :: d1 :: rest) w h false br tw th =
      .ok (if br then resizeForBraille d0 d1 else (d0, d1)) := by
  simp [resolveDims]

/-- Unfolding the conversion once the resolver value is known to be `ok`,
for a request without explicit dimensions (the post-resize width re-check of
lines 155–159 is vacuous then). -/
lemma convert_of_resolve_ok (R : Resampler) (img : Image) (w h : Nat)
    (fx fy full br : Bool) (tw th : Nat) (p : Nat × Nat)
    (hres : resolveDims img.width img.height [] w h full br tw th = .ok p) :
    ConvertToAsciiPixels R img [] w h fx fy full br tw th =
      .ok (if fx || fy then
            ImageConversions.reverse (sampleGrid (resize R img p.1 p.2)) fx fy
           else sampleGrid (resize R img p.1 p.2)) := by
  unfold ConvertToAsciiPixels
  rw [hres]
  simp

/-- Unfolding the conversion once the resolver value is known to be `ok`,
keeping the explicit-dimensions width re-check of lines 155–159 explicit. -/
lemma convert_of_resolve_ok_full (R : Resampler) (img : Image)
    (dims : List Nat) (w h : Nat) (fx fy full br : Bool) (tw th : Nat)
    (p : Nat × Nat)
    (hres : resolveDims img.width img.height dims w h full br tw th = .ok p) :
    ConvertToAsciiPixels R img dims w h fx fy full br tw th =
      if 0 < dims.length ∧ full = false ∧ tw - 1 < dims.getD 0 0 then
        .error widthBoundMsg
      else
        .ok (if fx || fy then
              ImageConversions.reverse (sampleGrid (resize R img p.1 p.2)) fx fy
             else sampleGrid (resize R img p.1 p.2)) := by
  unfold ConvertToAsciiPixels
  rw [hres]

/-- Unfolding the conversion when the resolver fails. -/
lemma convert_of_resolve_error (R : Resampler) (img : Image)
    (dims : List Nat) (w h : Nat) (fx fy full br : Bool) (tw th : Nat)
    (e : String)
    (hres : resolveDims img.width img.height dims w h full br tw th = .error e) :
    ConvertToAsciiPixels R img dims w h fx fy full br tw th = .error e := by
  unfold ConvertToAsciiPixels
  rw [hres]

/-! Claim theorems. -/

/-- C1: for every Auto request (no dimensions, width and height both 0, full
false), the resolver sets the grid height to `surface.height - 1` and derives
the width as twice the width of a probe resize at that height; whenever the
derived width is at least `surface.width` it falls back to
`width = surface.width - 1` with height derived by the 0.5 factor (realised,
as everywhere in the code, as truncated halving) from a probe resize at that
width; in both branches the operation succeeds without error.  The
`resizeForBraille` scaling applies to either branch's pair when the braille
cell unit is requested. -/
theorem auto_request_resolution (R : Resampler) (img : Image)
    (fx fy br : Bool) (tw th : Nat) :
    resolveDims img.width img.height [] 0 0 false br tw th =
      .ok (if tw ≤ 2 * (resizeDims img.width img.height 0 (th - 1)).1 then
             (if br then
               resizeForBraille (tw - 1)
                 ((resizeDims img.width img.height (tw - 1) 0).2 / 2)
              else (tw - 1, (resizeDims img.width img.height (tw - 1) 0).2 / 2))
           else
             (if br then
               resizeForBraille (2 * (resizeDims img.width img.height 0 (th - 1)).1)
                 (th - 1)
              else (2 * (resizeDims img.width img.height 0 (th - 1)).1, th - 1))) ∧
    ∃ g, ConvertToAsciiPixels R img [] 0 0 fx fy false br tw th = .ok g := by
  have hauto : resolveDims img.width img.height [] 0 0 false br tw th =
      if tw ≤ 2 * (resizeDims img.width img.height 0 (th - 1)).1 then
        .ok (if br then
              resizeForBraille (tw - 1)
                ((resizeDims img.width img.height (tw - 1) 0).2 / 2)
             else (tw - 1, (resizeDims img.width img.height (tw - 1) 0).2 / 2))
      else
        .ok (if br then
              resizeForBraille (2 * (resizeDims img.width img.height 0 (th - 1)).1)
                (th - 1)
             else (2 * (resizeDims img.width img.height 0 (th - 1)).1, th - 1)) := rfl
  constructor
  · rw [hauto]
    exact (apply_ite Except.ok _ _ _).symm
  · by_cases hc : tw ≤ 2 * (resizeDims img.width img.height 0 (th - 1)).1
    · exact ⟨_, convert_of_resolve_ok R img 0 0 fx fy false br tw th _
        (by rw [hauto, if_pos hc])⟩
    · exact ⟨_, convert_of_resolve_ok R img 0 0 fx fy false br tw th _
        (by rw [hauto, if_neg hc])⟩

/-- C2: for every ByWidth request (width `w ≠ 0`, height 0, no dimensions,
full false), if `w ≤ surface.width - 1` the conversion succeeds and returns a
grid, and if `w > surface.width - 1` it fails with a `ConstraintViolation`
error and returns no grid. -/
theorem byWidth_request_outcome (R : Resampler) (img : Image) (w : Nat)
    (fx fy br : Bool) (tw th : Nat) (hw : w ≠ 0) :
    (w ≤ tw - 1 →
      ∃ g, ConvertToAsciiPixels R img [] w 0 fx fy false br tw th = .ok g) ∧
    (tw - 1 < w →
      ∃ e, ConvertToAsciiPixels R img [] w 0 fx fy false br tw th = .error e ∧
        constraintViolation e ∧
        ∀ g, ConvertToAsciiPixels R img [] w 0 fx fy false br tw th ≠ .ok g) := by
  have hres := resolveDims_byWidth img.width img.height w br tw th hw
  constructor
  · intro hle
    rw [if_neg (Nat.not_lt.mpr hle)] at hres
    exact ⟨_, convert_of_resolve_ok R img w 0 fx fy false br tw th _ hres⟩
  · intro hlt
    rw [if_pos hlt] at hres
    have hc := convert_of_resolve_error R img [] w 0 fx fy false br tw th _ hres
    refine ⟨widthBoundMsg, hc, Or.inl rfl, fun g hg => ?_⟩
    rw [hc] at hg
    exact Except.noConfusion hg

/-- C2 witness: ByWidth 10 against an 80-column surface succeeds, and
ByWidth 100 fails with a `ConstraintViolation`. -/
theorem byWidth_request_outcome_witness :
    (∃ g, ConvertToAsciiPixels blackResampler (blackImage 2 2) [] 10 0
        false false false false 80 24 = .ok g) ∧
    (∃ e, ConvertToAsciiPixels blackResampler (blackImage 2 2) [] 100 0
        false false false false 80 24 = .error e ∧ constraintViolation e ∧
        ∀ g, ConvertToAsciiPixels blackResampler (blackImage 2 2) [] 100 0
          false false false false 80 24 ≠ .ok g) :=
  ⟨(byWidth_request_outcome blackResampler (blackImage 2 2) 10
      false false false 80 24 (by decide)).1 (by decide),
   (byWidth_request_outcome blackResampler (blackImage 2 2) 100
      false false false 80 24 (by decide)).2 (by decide)⟩

/-- C3 counterexample: for a 1×5 source and a surface of width 2, the Fill
probe at width 1 has height 5, the code resolves the height to 2 (truncated
halving), while `round(probe_height * 0.5)` is 3; so the resolver does not
compute `round(probe_height * 0.5)`. -/
theorem fill_round_counterexample :
    resolveDims 1 5 [] 0 0 true false 2 24 = .ok (1, 2) ∧
    (resizeDims 1 5 (2 - 1) 0).2 = 5 ∧
    (specRoundHalf ((resizeDims 1 5 (2 - 1) 0).2)).toNat = 3 ∧
    ¬ resolveDims 1 5 [] 0 0 true false 2 24 =
        .ok (2 - 1, (specRoundHalf ((resizeDims 1 5 (2 - 1) 0).2)).toNat) := by
  have h5 : (resizeDims 1 5 (2 - 1) 0).2 = 5 := rfl
  have hr : (specRoundHalf ((resizeDims 1 5 (2 - 1) 0).2)).toNat = 3 := by
    rw [h5]
    have : specRoundHalf 5 = 3 := by norm_num [specRoundHalf, round_eq]
    rw [this]
    rfl
  refine ⟨rfl, h5, hr, fun hcontra => ?_⟩
  rw [hr] at hcontra
  have : (1, 2) = ((2 - 1 : Nat), (3 : Nat)) := by
    have h := hcontra
    rw [show resolveDims 1 5 [] 0 0 true false 2 24 = .ok (1, 2) from rfl] at h
    exact Except.ok.inj h
  simp at this

/-- C3 amended: for every Fill request, the resolver sets
`width = surface.width - 1` and `height = ⌊probe_height * 0.5⌋` (truncated,
not rounded half up) from an aspect-preserving probe at that width, and the
braille cell unit scales the pair by (2, 4) before the final resize, so the
final resize targets `(2 * width, 4 * height)`. -/
theorem fill_request_resolution (srcW srcH : Nat) (dims : List Nat)
    (w h : Nat) (tw th : Nat) :
    resolveDims srcW srcH dims w h true false tw th =
      .ok (tw - 1, (resizeDims srcW srcH (tw - 1) 0).2 / 2) ∧
    resolveDims srcW srcH dims w h true true tw th =
      .ok ((tw - 1) * 2, ((resizeDims srcW srcH (tw - 1) 0).2 / 2) * 4) :=
  ⟨rfl, rfl⟩

/-- C4 counterexample: a Fill request over a 100×1 source with a surface of
width 4 resolves to `(3, 0)`: the Fill path derives height 0 and does not
clamp it to 1, so a successful resolution with height below 1 exists. -/
theorem fill_no_clamp_counterexample :
    resolveDims 100 1 [] 0 0 true false 4 24 = .ok (3, 0) ∧
    ¬ (1 : Nat) ≤ 0 :=
  ⟨rfl, by decide⟩

/-- C4 amended: only the ByWidth path clamps a derived height of 0 to 1 (so
every successful ByWidth resolution has height at least 1); the Fill and
Auto-fallback paths apply no clamp and may resolve a height of 0. -/
theorem byWidth_height_clamped (srcW srcH w : Nat) (br : Bool) (tw th : Nat)
    (p : Nat × Nat) (hw : w ≠ 0)
    (hok : resolveDims srcW srcH [] w 0 false br tw th = .ok p) :
    1 ≤ p.2 := by
  have hres := resolveDims_byWidth srcW srcH w br tw th hw
  rw [hres] at hok
  by_cases hlt : tw - 1 < w
  · rw [if_pos hlt] at hok
    exact Except.noConfusion hok
  · rw [if_neg hlt] at hok
    have hp := (Except.ok.inj hok).symm
    cases br
    · rw [hp]
      by_cases h0 : (resizeDims srcW srcH w 0).2 / 2 = 0 <;> simp [h0]
      omega
    · rw [hp]
      by_cases h0 : (resizeDims srcW srcH w 0).2 / 2 = 0 <;>
        simp [h0, resizeForBraille]
      omega

/-- C4 witness for the amended claim: ByWidth 10 over a 2×2 source resolves
to `(10, 5)`, whose height is at least 1. -/
theorem byWidth_height_clamped_witness : (1 : Nat) ≤ ((10, 5) : Nat × Nat).2 :=
  byWidth_height_clamped 2 2 10 false 80 24 (10, 5) (by decide) rfl

/-- C5 counterexample: with both width 100 and height 5 set against an
80-column surface, the conversion fails with the width-bound message, not
with the mutual-exclusion (`InvalidRequest`) message — so the both-set
rejection does not fire regardless of the values. -/
theorem bothSet_counterexample :
    ConvertToAsciiPixels blackResampler (blackImage 2 2) [] 100 5
      false false false false 80 24 = .error widthBoundMsg ∧
    widthBoundMsg ≠ bothSetMsg :=
  ⟨rfl, by decide⟩

/-- C5 amended: for every request with both single-axis sizing inputs
supplied (width and height both nonzero, no dimensions, full false), the
conversion fails; the `InvalidRequest` both-set error is returned when the
width respects the surface bound, while a width above `surface.width - 1` is
reported with the width `ConstraintViolation` message first. -/
theorem bothSet_rejection (R : Resampler) (img : Image) (w h : Nat)
    (fx fy br : Bool) (tw th : Nat) (hw : w ≠ 0) (hh : h ≠ 0) :
    ConvertToAsciiPixels R img [] w h fx fy false br tw th =
      .error (if tw - 1 < w then widthBoundMsg else bothSetMsg) :=
  convert_of_resolve_error R img [] w h fx fy false br tw th _
    (resolveDims_bothSet img.width img.height w h br tw th hw hh)

/-- C5 witness: ByWidth-and-ByHeight 3×5 against an 80-column surface fails
with the both-set message. -/
theorem bothSet_rejection_witness :
    ConvertToAsciiPixels blackResampler (blackImage 2 2) [] 3 5
      false false false false 80 24 =
      .error (if 80 - 1 < 3 then widthBoundMsg else bothSetMsg) :=
  bothSet_rejection blackResampler (blackImage 2 2) 3 5
    false false false 80 24 (by decide) (by decide)

/-- C6 counterexample: ByWidth 100 against surface width 80 fails, but the
message is the fixed string `widthBoundMsg`, and the digits "100" appear
nowhere in it — the error does not name the offending value. -/
theorem constraint_message_counterexample :
    ConvertToAsciiPixels blackResampler (blackImage 2 2) [] 100 0
      false false false false 80 24 = .error widthBoundMsg ∧
    ¬ (Nat.repr 100).toList <:+: widthBoundMsg.toList :=
  ⟨rfl, by decide⟩

/-- C6 amended: every `ConstraintViolation` error the conversion returns (for
ByWidth, ByHeight, or Explicit dimensions exceeding the usable surface width)
carries a fixed message that names no numeric value at all; in particular
ByWidth 100 against surface width 80 fails with the constant width-bound
message. -/
theorem constraint_messages_fixed (R : Resampler) (img : Image)
    (w h d0 d1 : Nat) (rest : List Nat) (fx fy br : Bool) (tw th : Nat)
    (htw : 1 ≤ tw) :
    (w ≠ 0 → tw - 1 < w →
      ConvertToAsciiPixels R img [] w 0 fx fy false br tw th =
        .error widthBoundMsg) ∧
    (h ≠ 0 → tw - 1 < 2 * (resizeDims img.width img.height 0 h).1 →
      ConvertToAsciiPixels R img [] 0 h fx fy false br tw th =
        .error derivedWidthMsg) ∧
    (tw - 1 < d0 →
      ConvertToAsciiPixels R img (d0 :: d1 :: rest) w h fx fy false br tw th =
        .error widthBoundMsg) ∧
    (∀ c ∈ widthBoundMsg.toList, ¬ c.isDigit) ∧
    (∀ c ∈ derivedWidthMsg.toList, ¬ c.isDigit) := by
  refine ⟨fun hw hlt => ?_, fun hh hlt => ?_, fun hlt => ?_, by decide, by decide⟩
  · refine convert_of_resolve_error R img [] w 0 fx fy false br tw th _ ?_
    rw [resolveDims_byWidth img.width img.height w br tw th hw, if_pos hlt]
  · refine convert_of_resolve_error R img [] 0 h fx fy false br tw th _ ?_
    rw [resolveDims_byHeight img.width img.height h br tw th hh, if_pos hlt]
  · unfold ConvertToAsciiPixels
    rw [resolveDims_explicit img.width img.height d0 d1 rest w h br tw th]
    simp [hlt]

/-- C6 witness for the amended claim: ByWidth 90 against an 80-column surface
fails with the fixed width-bound message. -/
theorem constraint_messages_fixed_witness :
    ConvertToAsciiPixels blackResampler (blackImage 2 2) [] 90 0
      false false false false 80 24 = .error widthBoundMsg :=
  (constraint_messages_fixed blackResampler (blackImage 2 2) 90 0 0 0 []
    false false false 80 24 (by decide)).1 (by decide) (by decide)

/-- C7: for every Explicit request (dimensions of length at least 2, full
false), the resolver uses `dimensions[0]` and `dimensions[1]` verbatim as
`(width, height)` with no aspect-ratio correction (only the `resizeForBraille`
cell scaling when requested), and the conversion fails, returning no grid,
whenever `dimensions[0] > surface.width - 1`. -/
theorem explicit_dimensions_passthrough (R : Resampler) (img : Image)
    (d0 d1 : Nat) (rest : List Nat) (w h : Nat) (fx fy br : Bool)
    (tw th : Nat) :
    resolveDims img.width img.height (d0 :: d1 :: rest) w h false br tw th =
      .ok (if br then resizeForBraille d0 d1 else (d0, d1)) ∧
    (tw - 1 < d0 →
      ConvertToAsciiPixels R img (d0 :: d1 :: rest) w h fx fy false br tw th =
        .error widthBoundMsg ∧
      ∀ g, ConvertToAsciiPixels R img (d0 :: d1 :: rest) w h fx fy false br
        tw th ≠ .ok g) := by
  refine ⟨resolveDims_explicit img.width img.height d0 d1 rest w h br tw th,
    fun hlt => ?_⟩
  have herr : ConvertToAsciiPixels R img (d0 :: d1 :: rest) w h fx fy false br
      tw th = .error widthBoundMsg := by
    unfold ConvertToAsciiPixels
    rw [resolveDims_explicit img.width img.height d0 d1 rest w h br tw th]
    simp [hlt]
  exact ⟨herr, fun g hg => Except.noConfusion (herr ▸ hg)⟩

/-- C7 witness: explicit dimensions `[100, 5]` against an 80-column surface
resolve verbatim and the conversion fails with the width-bound error. -/
theorem explicit_dimensions_passthrough_witness :
    ConvertToAsciiPixels blackResampler (blackImage 2 2) [100, 5] 0 0
      false false false false 80 24 = .error widthBoundMsg :=
  ((explicit_dimensions_passthrough blackResampler (blackImage 2 2) 100 5 []
    0 0 false false false 80 24).2 (by decide)).1

/-- C8: for every pixel, the sampler derives each output channel by
truncating division of the native 16-bit channel by 257: the intensity is the
single (red) channel of the grayscale-converted pixel divided by 257, which
is the gray byte itself; the grayscale triple repeats it; the color triple
divides the original channels; and every resulting field lies in `[0, 255]`.
Consequently a fully black 2×2 image with no mirroring samples to exactly
four zero `AsciiPixel` values in row-major order. -/
theorem sampler_normalization :
    (∀ c : Color, c.r ≤ 65535 → c.g ≤ 65535 → c.b ≤ 65535 →
      (samplePixel c).charDepth = grayChannel c / 257 ∧
      (samplePixel c).charDepth = grayY c ∧
      (samplePixel c).grayscaleValue = (grayY c, grayY c, grayY c) ∧
      (samplePixel c).rgbValue = (c.r / 257, c.g / 257, c.b / 257) ∧
      (samplePixel c).charDepth ≤ 255 ∧
      c.r / 257 ≤ 255 ∧ c.g / 257 ≤ 255 ∧ c.b / 257 ≤ 255) ∧
    sampleGrid (blackImage 2 2) =
      [[blackAsciiPixel, blackAsciiPixel], [blackAsciiPixel, blackAsciiPixel]] := by
  refine ⟨fun c hr hg hb => ?_, by decide⟩
  have hy : grayChannel c / 257 = grayY c := by
    rw [grayChannel_eq, Nat.mul_div_cancel_left _ (by decide : 0 < 257)]
  refine ⟨rfl, hy, ?_, rfl, ?_, ?_, ?_, ?_⟩
  · show (grayChannel c / 257, grayChannel c / 257, grayChannel c / 257) = _
    rw [hy]
  · show grayChannel c / 257 ≤ 255
    rw [hy]
    exact Nat.le_of_lt_succ (grayY_lt c)
  · exact Nat.le_of_lt_succ (Nat.div_lt_of_lt_mul (by omega))
  · exact Nat.le_of_lt_succ (Nat.div_lt_of_lt_mul (by omega))
  · exact Nat.le_of_lt_succ (Nat.div_lt_of_lt_mul (by omega))

/-- C8 witness: the per-pixel facts instantiated at the black pixel. -/
theorem sampler_normalization_witness :
    (samplePixel blackColor).charDepth = grayChannel blackColor / 257 ∧
    (samplePixel blackColor).charDepth = grayY blackColor ∧
    (samplePixel blackColor).grayscaleValue =
      (grayY blackColor, grayY blackColor, grayY blackColor) ∧
    (samplePixel blackColor).rgbValue =
      (blackColor.r / 257, blackColor.g / 257, blackColor.b / 257) ∧
    (samplePixel blackColor).charDepth ≤ 255 ∧
    blackColor.r / 257 ≤ 255 ∧ blackColor.g / 257 ≤ 255 ∧
    blackColor.b / 257 ≤ 255 :=
  sampler_normalization.1 blackColor (by decide) (by decide) (by decide)

/-- C9: the mirror operations are involutions and commute: flipping columns
twice, or rows twice, restores the grid, and flipping columns then rows
equals flipping rows then columns. -/
theorem mirror_involution_commute (g : List (List AsciiPixel)) :
    ImageConversions.reverse (ImageConversions.reverse g true false) true false = g ∧
    ImageConversions.reverse (ImageConversions.reverse g false true) false true = g ∧
    ImageConversions.reverse (ImageConversions.reverse g true false) false true =
      ImageConversions.reverse (ImageConversions.reverse g false true) true false := by
  refine ⟨?_, ?_, ?_⟩
  · show (g.map List.reverse).map List.reverse = g
    simp [List.map_map, Function.comp_def]
  · show g.reverse.reverse = g
    simp
  · show (g.map List.reverse).reverse = g.reverse.map List.reverse
    simp [List.map_reverse]

/-- C10: every grid the conversion returns is rectangular, with exactly one
row per row of the resized image and one `AsciiPixel` per column, and the
mirror pass preserves the row count and every row's length. -/
theorem conversion_grid_rectangular (R : Resampler) (img : Image)
    (dims : List Nat) (w h : Nat) (fx fy full br : Bool) (tw th : Nat)
    (g : List (List AsciiPixel))
    (hok : ConvertToAsciiPixels R img dims w h fx fy full br tw th = .ok g) :
    (∃ p, resolveDims img.width img.height dims w h full br tw th = .ok p ∧
      g.length = (resize R img p.1 p.2).height ∧
      ∀ r ∈ g, r.length = (resize R img p.1 p.2).width) ∧
    ∀ (gs : List (List AsciiPixel)) (fx' fy' : Bool),
      (ImageConversions.reverse gs fx' fy').length = gs.length ∧
      ∀ n, (∀ r ∈ gs, r.length = n) →
        ∀ r ∈ ImageConversions.reverse gs fx' fy', r.length = n := by
  refine ⟨?_, fun gs fx' fy' =>
    ⟨reverse_length gs fx' fy', fun n hall => reverse_row_length gs fx' fy' n hall⟩⟩
  cases hres : resolveDims img.width img.height dims w h full br tw th with
  | error e =>
    rw [convert_of_resolve_error R img dims w h fx fy full br tw th e hres] at hok
    exact Except.noConfusion hok
  | ok p =>
    rw [convert_of_resolve_ok_full R img dims w h fx fy full br tw th p hres]
      at hok
    by_cases hchk : 0 < dims.length ∧ full = false ∧ tw - 1 < dims.getD 0 0
    · rw [if_pos hchk] at hok
      exact Except.noConfusion hok
    · rw [if_neg hchk] at hok
      refine ⟨p, rfl, ?_⟩
      have hg := (Except.ok.inj hok).symm
      cases hfxy : fx || fy
      · rw [hfxy] at hg
        simp only [Bool.false_eq_true, if_false] at hg
        rw [hg]
        exact ⟨sampleGrid_length _, sampleGrid_row_length _⟩
      · rw [hfxy] at hg
        simp only [if_true] at hg
        rw [hg]
        refine ⟨?_, ?_⟩
        · rw [reverse_length, sampleGrid_length]
        · exact reverse_row_length _ fx fy _ (sampleGrid_row_length _)

/-- C10 witness: a concrete conversion of a black 2×2 image with explicit
dimensions `[2, 1]` returns the 1×2 grid, which is rectangular as claimed. -/
theorem conversion_grid_rectangular_witness :
    (∃ p, resolveDims (blackImage 2 2).width (blackImage 2 2).height [2, 1]
        0 0 false false 80 24 = .ok p ∧
      ([[blackAsciiPixel, blackAsciiPixel]] :
          List (List AsciiPixel)).length =
        (resize blackResampler (blackImage 2 2) p.1 p.2).height ∧
      ∀ r ∈ ([[blackAsciiPixel, blackAsciiPixel]] :
          List (List AsciiPixel)), r.length =
        (resize blackResampler (blackImage 2 2) p.1 p.2).width) ∧
    ∀ (gs : List (List AsciiPixel)) (fx' fy' : Bool),
      (ImageConversions.reverse gs fx' fy').length = gs.length ∧
      ∀ n, (∀ r ∈ gs, r.length = n) →
        ∀ r ∈ ImageConversions.reverse gs fx' fy', r.length = n :=
  conversion_grid_rectangular blackResampler (blackImage 2 2) [2, 1] 0 0
    false false false false 80 24 [[blackAsciiPixel, blackAsciiPixel]] rfl

end ImageConversions
